import Mathlib

/- Shallow embedding of the jvox renderer: src/gpu.rs and src/render_context.rs.

   Machine floats (f32 and f64) are modelled as exact rationals: the control
   parameters and aspect ratios are only stored and passed around, never
   combined by float arithmetic the claims depend on.  GPU handles that no
   claim inspects (surface, adapter, device, queue, texture, sampler, shader
   modules, pipeline objects) are elided; the observable GPU interaction is
   modelled as the list of commands recorded into the next-frame encoder and
   the list of commands submitted by each render call.  A Rust panic is
   modelled as the error branch of an Except value. -/

namespace Jvox

/-- Modelled from the spec: the mesh generator lives in the utils module,
which is absent from the available sources.  Per the spec, a vertex is 4
position floats plus 2 texture-coordinate floats whose values depend
deterministically on the control parameters and the lattice point; we
represent a vertex abstractly by its generating data. -/
structure Vertex where
  amplitude : Rat
  frequency : Rat
  lattice : Nat
deriving DecidableEq, Repr

/-- Modelled from the spec: utils::VERTEX_SIZE = 24 bytes per vertex
(16 bytes position + 8 bytes texcoord). -/
def VERTEX_SIZE : Nat := 24

/-- Modelled from the spec: the lattice resolution is fixed but its exact
value is not in the available sources; we take an arbitrary fixed stand-in
of 4 cells per side. -/
def latticeCells : Nat := 4

def latticeVertexCount : Nat := (latticeCells + 1) * (latticeCells + 1)

def latticeIndexCount : Nat := latticeCells * latticeCells * 6

/-- Modelled from the spec: utils::create_vertices(amplitude, frequency)
returns heap-allocated vertex and u32 index vectors for a fixed-resolution
lattice; the vertex and index counts are invariant across parameters and the
index data (the triangulation of the fixed lattice) does not depend on the
parameters at all. -/
def create_vertices (amplitude : Rat) (frequency : Rat) :
    List Vertex × List Nat :=
  ((List.range latticeVertexCount).map (fun i => ⟨amplitude, frequency, i⟩),
   List.range latticeIndexCount)

/-- Modelled from the spec: utils::generate_matrix(aspect) is deterministic
and depends only on the aspect ratio; the spec further states that distinct
aspect ratios give distinct matrices, so the matrix is represented abstractly
by the aspect ratio that generated it. -/
structure CameraMatrix where
  aspect : Rat
deriving DecidableEq, Repr

def generate_matrix (aspect : Rat) : CameraMatrix :=
  ⟨aspect⟩

/-- Source payload of a buffer-to-buffer copy: the contents of the temporary
COPY_SRC buffer the code creates. -/
inductive ByteSrc
  | vertexBytes (data : List Vertex)
  | indexBytes (data : List Nat)
  | matrixBytes (m : CameraMatrix)
deriving DecidableEq, Repr

/-- Byte length of a copy-source payload: a vertex is 24 bytes, a u32 index
is 4 bytes, the 4x4 f32 camera matrix is 64 bytes. -/
def ByteSrc.byteLength : ByteSrc → Nat
  | ByteSrc.vertexBytes l => l.length * 24
  | ByteSrc.indexBytes l => 4 * l.length
  | ByteSrc.matrixBytes _ => 64

/-- The three persistent GPU buffers a staged copy can target. -/
inductive BufDst
  | vertexBuf
  | indexBuf
  | uniformBuf
deriving DecidableEq, Repr

/-- One draw_indexed call: index range, base vertex, instance range. -/
structure DrawIndexed where
  indexStart : Nat
  indexEnd : Nat
  baseVertex : Int
  instStart : Nat
  instEnd : Nat
deriving DecidableEq, Repr

/-- The render pass recorded by render(): its clear color and the draw calls
it issues. -/
structure RenderPassDesc where
  clearColor : Rat × Rat × Rat × Rat
  draws : List DrawIndexed
deriving DecidableEq, Repr

/-- A GPU command recorded into a command encoder, at the granularity the
claims observe: buffer-to-buffer copies (source payload, destination buffer,
copy byte length as passed to copy_buffer_to_buffer) and render passes. -/
inductive Cmd
  | copyBufferToBuffer (src : ByteSrc) (dst : BufDst) (byteLen : Nat)
  | renderPass (pass : RenderPassDesc)
deriving DecidableEq, Repr

/-- The bind group built in RenderContext::create, reduced to the datum the
claims inspect: the byte range of the binding-0 buffer binding. -/
structure BindGroupModel where
  binding0_buffer_range : Nat × Nat
deriving DecidableEq, Repr

/-- State of render_context.rs RenderContext.  GPU-handle fields with no
observable content (surface, adapter, device, queue, shader modules, texture,
sampler, pipeline objects) are elided; the next_frame_encoder is the list of
commands accumulated since it was created. -/
structure RenderContext where
  amplitude : Rat
  frequency : Rat
  vertex_buf_len : Nat
  index_buf_len : Nat
  sc_width : Nat
  sc_height : Nat
  mx_total : CameraMatrix
  bind_group : BindGroupModel
  next_frame_encoder : List Cmd
  dirty : Bool
deriving DecidableEq, Repr

/-- The fully constructed context produced by the success path of
RenderContext::create (render_context.rs lines 58-336) for a window of the
given inner size.  amplitude = 10.0, frequency = 6.0; vertex_buf_len =
vertex_data.len() * VERTEX_SIZE; index_buf_len = index byte length / 4
(the u32 byte slice has 4 bytes per index); mx_total =
generate_matrix(width / height); the binding-0 buffer range is
0..mx_ref.len() where mx_ref is a reference to the 16-element f32 array, so
the recorded range end is the element count 16, not the byte count; the
fresh next-frame encoder is empty and dirty = false. -/
def RenderContext.initial (w : Nat) (h : Nat) : RenderContext :=
  let amplitude : Rat := 10
  let frequency : Rat := 6
  let vertex_data := (create_vertices amplitude frequency).1
  let index_data := (create_vertices amplitude frequency).2
  let vertex_buf_len := vertex_data.length * VERTEX_SIZE
  let index_byte_len := 4 * index_data.length
  let index_buf_len := index_byte_len / 4
  let mx_ref_len := 16
  { amplitude := amplitude
    frequency := frequency
    vertex_buf_len := vertex_buf_len
    index_buf_len := index_buf_len
    sc_width := w
    sc_height := h
    mx_total := generate_matrix ((w : Rat) / (h : Rat))
    bind_group := { binding0_buffer_range := (0, mx_ref_len) }
    next_frame_encoder := []
    dirty := false }

/-- The panics reachable inside RenderContext::create: the adapter-request
unwrap and the two read_spirv unwraps. -/
inductive CreatePanic
  | adapterUnwrap
  | vertexShaderUnwrap
  | fragmentShaderUnwrap
deriving DecidableEq, Repr

/-- RenderContext::create.  The environment is abstracted by three booleans:
whether the adapter request yields an adapter and whether each embedded
SPIR-V payload parses.  Every failure path panics (error branch); the single
return statement wraps the constructed context in Some. -/
def RenderContext.create (w : Nat) (h : Nat)
    (adapterOk : Bool) (vsOk : Bool) (fsOk : Bool) :
    Except CreatePanic (Option RenderContext) :=
  if adapterOk = false then Except.error CreatePanic.adapterUnwrap
  else if vsOk = false then Except.error CreatePanic.vertexShaderUnwrap
  else if fsOk = false then Except.error CreatePanic.fragmentShaderUnwrap
  else Except.ok (some (RenderContext.initial w h))

/-- RenderContext::resize (render_context.rs lines 338-350): store the new
dimensions, recreate the swapchain, recompute mx_total from the new aspect
ratio, and record a 64-byte copy from a temporary buffer holding the new
matrix into the uniform buffer, into the pending next-frame encoder. -/
def RenderContext.resize (s : RenderContext) (w : Nat) (h : Nat) :
    RenderContext :=
  let mx := generate_matrix ((w : Rat) / (h : Rat))
  { s with
    sc_width := w
    sc_height := h
    mx_total := mx
    next_frame_encoder := s.next_frame_encoder ++
      [Cmd.copyBufferToBuffer (ByteSrc.matrixBytes mx) BufDst.uniformBuf 64] }

/-- RenderContext::regenerate_mesh (render_context.rs lines 410-416):
rebuild the mesh from the current parameters and record two copies into the
next-frame encoder.  The vertex copy length is vertex_data.len() * 24
(bytes); the index copy length is index_data.len() as u64 — the element
count of the u32 vector, exactly as the source writes it. -/
def RenderContext.regenerate_mesh (s : RenderContext) : RenderContext :=
  let vertex_data := (create_vertices s.amplitude s.frequency).1
  let index_data := (create_vertices s.amplitude s.frequency).2
  { s with
    next_frame_encoder := s.next_frame_encoder ++
      [Cmd.copyBufferToBuffer (ByteSrc.vertexBytes vertex_data)
        BufDst.vertexBuf (vertex_data.length * 24),
       Cmd.copyBufferToBuffer (ByteSrc.indexBytes index_data)
        BufDst.indexBuf index_data.length] }

/-- The panic raised by the expect call on swapchain acquisition in
RenderContext::render, carrying its diagnostic message. -/
structure RenderPanic where
  msg : String
deriving DecidableEq, Repr

/-- The render pass recorded by RenderContext::render (lines 366-387):
clear color (0.1, 0.2, 0.3, 1.0) and one draw_indexed over index range
0..index_buf_len, base vertex 0, instance range 0..1. -/
def framePass (s : RenderContext) : Cmd :=
  Cmd.renderPass
    { clearColor := (1/10, 1/5, 3/10, 1)
      draws := [{ indexStart := 0
                  indexEnd := s.index_buf_len
                  baseVertex := 0
                  instStart := 0
                  instEnd := 1 }] }

/-- RenderContext::render (render_context.rs lines 352-390).  The Bool
abstracts whether swapchain acquisition succeeds; on failure the expect call
panics with its message.  Otherwise: if dirty, regenerate_mesh (which
appends its copies to the still-current next-frame encoder) and clear dirty;
then swap a fresh encoder in, record the render pass into the swapped-out
accumulated encoder and submit it.  The returned list is the submitted
command buffer, in recording order. -/
def RenderContext.render (s : RenderContext) (acquireOk : Bool) :
    Except RenderPanic (RenderContext × List Cmd) :=
  if acquireOk = false then
    Except.error ⟨"Timeout when acquiring next swap chain texture."⟩
  else
    let s₁ := if s.dirty then
        { s.regenerate_mesh with dirty := false }
      else s
    Except.ok ({ s₁ with next_frame_encoder := [] },
      s₁.next_frame_encoder ++ [framePass s₁])

/-- RenderContext::set_dirty (line 393). -/
def RenderContext.set_dirty (s : RenderContext) : RenderContext :=
  { s with dirty := true }

/-- RenderContext::set_amplitude (line 399). -/
def RenderContext.set_amplitude (s : RenderContext) (amplitude : Rat) :
    RenderContext :=
  { s with amplitude := amplitude }

/-- RenderContext::set_frequency (line 405). -/
def RenderContext.set_frequency (s : RenderContext) (frequency : Rat) :
    RenderContext :=
  { s with frequency := frequency }

/-- A swapchain frame handle (gpu.rs wgpu::SwapChainFrame), abstract. -/
structure Frame where
  id : Nat
deriving DecidableEq, Repr

/-- The backend swapchain acquisition errors (wgpu::SwapChainError). -/
inductive SwapChainError
  | timeout
  | outdated
  | lost
  | outOfMemory
deriving DecidableEq, Repr

/-- gpu.rs GpuContextError. -/
inductive GpuContextError
  | RequestAdapterError
  | RequestDeviceError (e : String)
  | SwapChainError (e : SwapChainError)
deriving DecidableEq, Repr

/-- GpuContext::get_next_frame (gpu.rs lines 122-124): forward the backend
result, wrapping any backend error in GpuContextError::SwapChainError; the
codomain has no panic, so acquisition failure is always a returned value. -/
def GpuContext.get_next_frame
    (backendResult : Except SwapChainError Frame) :
    Except GpuContextError Frame :=
  match backendResult with
  | Except.ok f => Except.ok f
  | Except.error e => Except.error (GpuContextError.SwapChainError e)

/-- The command buffer submitted by a render result (empty if the render
call panicked). -/
def submittedOf (r : Except RenderPanic (RenderContext × List Cmd)) :
    List Cmd :=
  match r with
  | Except.ok (_, cmds) => cmds
  | Except.error _ => []

/-- The context state after a render result (unchanged if the render call
panicked). -/
def renderStateAfter (s : RenderContext) (acquireOk : Bool) :
    RenderContext :=
  match RenderContext.render s acquireOk with
  | Except.ok (s', _) => s'
  | Except.error _ => s

/-- The vertex-buffer copy that regenerate_mesh stages on state s. -/
def regenVertexCopy (s : RenderContext) : Cmd :=
  Cmd.copyBufferToBuffer
    (ByteSrc.vertexBytes (create_vertices s.amplitude s.frequency).1)
    BufDst.vertexBuf
    ((create_vertices s.amplitude s.frequency).1.length * 24)

/-- The index-buffer copy that regenerate_mesh stages on state s. -/
def regenIndexCopy (s : RenderContext) : Cmd :=
  Cmd.copyBufferToBuffer
    (ByteSrc.indexBytes (create_vertices s.amplitude s.frequency).2)
    BufDst.indexBuf
    ((create_vertices s.amplitude s.frequency).2.length)

/-- Effect of one recorded command on the uniform-buffer contents: a copy
into the uniform buffer replaces it (every copy the code stages there has
byte length 64, the full buffer); every other command leaves it alone. -/
def applyUniform (u : CameraMatrix) (c : Cmd) : CameraMatrix :=
  match c with
  | Cmd.copyBufferToBuffer (ByteSrc.matrixBytes m) BufDst.uniformBuf _ => m
  | _ => u

/-- Uniform-buffer contents after the queue executes a submitted command
list in order, starting from contents u. -/
def finalUniform (u : CameraMatrix) (cmds : List Cmd) : CameraMatrix :=
  cmds.foldl applyUniform u

/-- All draw calls issued by the render passes in a command list, in
order. -/
def drawsOf : List Cmd → List DrawIndexed
  | [] => []
  | Cmd.renderPass p :: rest => p.draws ++ drawsOf rest
  | Cmd.copyBufferToBuffer _ _ _ :: rest => drawsOf rest

/-- Number of vertex-buffer copies that precede the first render pass of a
command list: the mesh updates a frame consumes before its own draw. -/
def meshCopyBeforePassCount (cmds : List Cmd) : Nat :=
  (cmds.takeWhile (fun c => match c with
    | Cmd.renderPass _ => false
    | Cmd.copyBufferToBuffer _ _ _ => true)).countP
    (fun c => match c with
      | Cmd.copyBufferToBuffer _ BufDst.vertexBuf _ => true
      | _ => false)

/-- One call to a control-parameter mutator between two render calls. -/
inductive CtlOp
  | setAmp (v : Rat)
  | setFreq (v : Rat)
  | setDirty
deriving DecidableEq, Repr

def applyOp (s : RenderContext) : CtlOp → RenderContext
  | CtlOp.setAmp v => RenderContext.set_amplitude s v
  | CtlOp.setFreq v => RenderContext.set_frequency s v
  | CtlOp.setDirty => RenderContext.set_dirty s

def applyOps (s : RenderContext) (ops : List CtlOp) : RenderContext :=
  ops.foldl applyOp s

/-- A state with the dirty flag set, obtained through set_dirty. -/
def exDirty : RenderContext :=
  RenderContext.set_dirty (RenderContext.initial 800 600)

/-- A freshly constructed context used as a concrete starting point. -/
def wStart : RenderContext :=
  RenderContext.initial 800 600

/-- A concrete mutation sequence with set_dirty called once among several
parameter changes. -/
def wOps : List CtlOp :=
  [CtlOp.setAmp 3, CtlOp.setDirty, CtlOp.setFreq 2, CtlOp.setAmp 5]

theorem render_dirty_submits (s : RenderContext) (hd : s.dirty = true) :
    RenderContext.render s true =
      Except.ok ({ s with dirty := false, next_frame_encoder := [] },
        s.next_frame_encoder ++
          [regenVertexCopy s, regenIndexCopy s, framePass s]) := by
  simp [RenderContext.render, RenderContext.regenerate_mesh, hd,
    regenVertexCopy, regenIndexCopy, framePass]

theorem render_clean_submits (s : RenderContext) (hc : s.dirty = false) :
    RenderContext.render s true =
      Except.ok ({ s with next_frame_encoder := [] },
        s.next_frame_encoder ++ [framePass s]) := by
  simp [RenderContext.render, hc]

theorem applyOp_dirty_mono (s : RenderContext) (o : CtlOp)
    (h : s.dirty = true) : (applyOp s o).dirty = true := by
  cases o <;> simp [applyOp, RenderContext.set_amplitude,
    RenderContext.set_frequency, RenderContext.set_dirty, h]

theorem applyOps_dirty_mono (s : RenderContext) (ops : List CtlOp)
    (h : s.dirty = true) : (applyOps s ops).dirty = true := by
  induction ops generalizing s with
  | nil => simpa [applyOps]
  | cons o rest ih =>
    simp only [applyOps, List.foldl_cons]
    exact ih (applyOp s o) (applyOp_dirty_mono s o h)

theorem applyOps_dirty_of_mem (s : RenderContext) (ops : List CtlOp)
    (h : CtlOp.setDirty ∈ ops) : (applyOps s ops).dirty = true := by
  induction ops generalizing s with
  | nil => cases h
  | cons o rest ih =>
    rcases List.mem_cons.mp h with h1 | h2
    · simp only [applyOps, List.foldl_cons, ← h1]
      exact applyOps_dirty_mono _ rest rfl
    · simp only [applyOps, List.foldl_cons]
      exact ih (applyOp s o) h2

/-- C1: the claim says a regeneration staged during the render call of frame
N is not consumed by the draw of frame N.  Counterexample: on a concrete
dirty state, the command buffer frame N submits contains the staged
vertex-buffer copy before its render pass, so the draw of frame N already
consumes it. -/
theorem oneFrameLatency_counterexample :
    exDirty.dirty = true ∧
    meshCopyBeforePassCount
      (submittedOf (RenderContext.render exDirty true)) = 1 := by
  decide

/-- C1 (amended): a mesh regeneration staged during the render call of frame
N is recorded into the very encoder frame N submits — both copies precede
the render pass of frame N, so the regenerated geometry is consumed already
by the draw of frame N, and the fresh pending encoder starts out empty. -/
theorem regen_copies_submitted_same_frame (s : RenderContext)
    (hd : s.dirty = true) :
    RenderContext.render s true =
      Except.ok ({ s with dirty := false, next_frame_encoder := [] },
        s.next_frame_encoder ++
          [regenVertexCopy s, regenIndexCopy s, framePass s]) :=
  render_dirty_submits s hd

theorem regen_copies_submitted_same_frame_witness :
    exDirty.dirty = true ∧
    RenderContext.render exDirty true =
      Except.ok ({ exDirty with dirty := false, next_frame_encoder := [] },
        exDirty.next_frame_encoder ++
          [regenVertexCopy exDirty, regenIndexCopy exDirty,
           framePass exDirty]) :=
  ⟨rfl, regen_copies_submitted_same_frame exDirty rfl⟩

/-- C2: regenerate_mesh stages the vertex copy with byte length vertex
count times 24 (the full vertex data), but stages the index copy with
length index_data.len() — the element count of the u32 vector, not its byte
length: on the modelled mesh the staged length is 96 while the index data
occupies 384 bytes, so only a quarter of the index data would be copied. -/
theorem regenerate_mesh_index_copy_length_bug :
    (RenderContext.regenerate_mesh wStart).next_frame_encoder =
      [Cmd.copyBufferToBuffer (ByteSrc.vertexBytes (create_vertices 10 6).1)
        BufDst.vertexBuf 600,
       Cmd.copyBufferToBuffer (ByteSrc.indexBytes (create_vertices 10 6).2)
        BufDst.indexBuf 96] ∧
    ByteSrc.byteLength (ByteSrc.vertexBytes (create_vertices 10 6).1) =
      600 ∧
    ByteSrc.byteLength (ByteSrc.indexBytes (create_vertices 10 6).2) =
      384 ∧
    (96 : Nat) ≠ 384 := by
  decide

/-- C3: the bind group built by RenderContext::create records the binding-0
buffer range as 0..mx_ref.len(), and mx_ref is a reference to the 16-element
f32 array — so the recorded byte range is 0..16, not the full 64-byte range
0..64 the claim states. -/
theorem bind_group_uniform_range_bug :
    RenderContext.create 800 600 true true true =
      Except.ok (some (RenderContext.initial 800 600)) ∧
    (RenderContext.initial 800 600).bind_group.binding0_buffer_range =
      (0, 16) ∧
    ((0 : Nat), (16 : Nat)) ≠ ((0 : Nat), (64 : Nat)) :=
  ⟨rfl, rfl, by decide⟩

/-- C4: any number of set_amplitude, set_frequency and set_dirty calls
between two render calls, with set_dirty called at least once, results in
the next render call staging exactly one mesh regeneration — the two copies
computed from the amplitude and frequency current when render executes —
and clearing the dirty flag; a render call with the dirty flag unset stages
no regeneration. -/
theorem dirty_flag_coalescing (s : RenderContext) (ops : List CtlOp) :
    (CtlOp.setDirty ∈ ops →
      RenderContext.render (applyOps s ops) true =
        Except.ok
          ({ applyOps s ops with dirty := false, next_frame_encoder := [] },
           (applyOps s ops).next_frame_encoder ++
             [regenVertexCopy (applyOps s ops),
              regenIndexCopy (applyOps s ops),
              framePass (applyOps s ops)])) ∧
    (s.dirty = false →
      RenderContext.render s true =
        Except.ok ({ s with next_frame_encoder := [] },
          s.next_frame_encoder ++ [framePass s])) :=
  ⟨fun hmem => render_dirty_submits _ (applyOps_dirty_of_mem s ops hmem),
   fun hc => render_clean_submits s hc⟩

theorem dirty_flag_coalescing_witness :
    (CtlOp.setDirty ∈ wOps ∧ wStart.dirty = false) ∧
    RenderContext.render (applyOps wStart wOps) true =
      Except.ok
        ({ applyOps wStart wOps with
            dirty := false, next_frame_encoder := [] },
         (applyOps wStart wOps).next_frame_encoder ++
           [regenVertexCopy (applyOps wStart wOps),
            regenIndexCopy (applyOps wStart wOps),
            framePass (applyOps wStart wOps)]) ∧
    RenderContext.render wStart true =
      Except.ok ({ wStart with next_frame_encoder := [] },
        wStart.next_frame_encoder ++ [framePass wStart]) :=
  ⟨⟨by decide, rfl⟩,
   (dirty_flag_coalescing wStart wOps).1 (by decide),
   (dirty_flag_coalescing wStart wOps).2 rfl⟩

/-- C5: after resize(w1, h1) then resize(w2, h2) with differing aspect
ratios, each resize stages a 64-byte copy of the recomputed matrix into the
pending encoder, and after the next render call submits that encoder the
uniform buffer holds generate_matrix(w2 / h2) — not the w1 / h1 matrix or
any other stale value, whatever the uniform buffer held before. -/
theorem resize_twice_render_uniform (s : RenderContext) (u : CameraMatrix)
    (w1 : Nat) (h1 : Nat) (w2 : Nat) (h2 : Nat)
    (hne : (w1 : Rat) / (h1 : Rat) ≠ (w2 : Rat) / (h2 : Rat)) :
    (RenderContext.resize s w1 h1).next_frame_encoder =
      s.next_frame_encoder ++
        [Cmd.copyBufferToBuffer
          (ByteSrc.matrixBytes (generate_matrix ((w1 : Rat) / (h1 : Rat))))
          BufDst.uniformBuf 64] ∧
    finalUniform u (submittedOf (RenderContext.render
        (RenderContext.resize (RenderContext.resize s w1 h1) w2 h2) true)) =
      generate_matrix ((w2 : Rat) / (h2 : Rat)) ∧
    finalUniform u (submittedOf (RenderContext.render
        (RenderContext.resize (RenderContext.resize s w1 h1) w2 h2) true)) ≠
      generate_matrix ((w1 : Rat) / (h1 : Rat)) := by
  have hmain : finalUniform u (submittedOf (RenderContext.render
      (RenderContext.resize (RenderContext.resize s w1 h1) w2 h2) true)) =
      generate_matrix ((w2 : Rat) / (h2 : Rat)) := by
    cases hd : s.dirty
    · rw [render_clean_submits _ (by simp [RenderContext.resize, hd])]
      simp [submittedOf, RenderContext.resize, finalUniform,
        List.foldl_append, applyUniform, framePass]
    · rw [render_dirty_submits _ (by simp [RenderContext.resize, hd])]
      simp [submittedOf, RenderContext.resize, finalUniform,
        List.foldl_append, applyUniform, framePass, regenVertexCopy,
        regenIndexCopy]
  refine ⟨rfl, hmain, ?_⟩
  rw [hmain]
  intro hEq
  simp only [generate_matrix, CameraMatrix.mk.injEq] at hEq
  exact hne hEq.symm

theorem resize_twice_render_uniform_witness :
    ((800 : Rat) / (600 : Rat) ≠ (400 : Rat) / (400 : Rat)) ∧
    ((RenderContext.resize wStart 800 600).next_frame_encoder =
      wStart.next_frame_encoder ++
        [Cmd.copyBufferToBuffer
          (ByteSrc.matrixBytes
            (generate_matrix ((800 : Rat) / (600 : Rat))))
          BufDst.uniformBuf 64] ∧
    finalUniform ⟨0⟩ (submittedOf (RenderContext.render
        (RenderContext.resize
          (RenderContext.resize wStart 800 600) 400 400) true)) =
      generate_matrix ((400 : Rat) / (400 : Rat)) ∧
    finalUniform ⟨0⟩ (submittedOf (RenderContext.render
        (RenderContext.resize
          (RenderContext.resize wStart 800 600) 400 400) true)) ≠
      generate_matrix ((800 : Rat) / (600 : Rat))) :=
  ⟨by norm_num,
   resize_twice_render_uniform wStart ⟨0⟩ 800 600 400 400 (by norm_num)⟩

/-- C6: the two components treat swapchain acquisition failure differently:
GpuContext::get_next_frame returns the failure as a typed GpuContextError
value wrapping the backend error (its codomain has no panic), while
RenderContext::render treats acquisition failure as fatal, panicking with
its timeout diagnostic message instead of returning an error value. -/
theorem swapchain_error_handling_split (e : SwapChainError) (fr : Frame)
    (s : RenderContext) :
    GpuContext.get_next_frame (Except.error e) =
      Except.error (GpuContextError.SwapChainError e) ∧
    GpuContext.get_next_frame (Except.ok fr) = Except.ok fr ∧
    RenderContext.render s false =
      Except.error ⟨"Timeout when acquiring next swap chain texture."⟩ :=
  ⟨rfl, rfl, rfl⟩

/-- C7: set_amplitude sets exactly the amplitude field and set_frequency
exactly the frequency field; neither touches the dirty flag, the encoder,
or any other field (so no mesh rebuild is triggered), and a rebuild is
requested only by a separate set_dirty call. -/
theorem setters_touch_only_their_field (s : RenderContext) (a : Rat)
    (f : Rat) :
    (RenderContext.set_amplitude s a).amplitude = a ∧
    (RenderContext.set_amplitude s a).frequency = s.frequency ∧
    (RenderContext.set_amplitude s a).dirty = s.dirty ∧
    (RenderContext.set_amplitude s a).vertex_buf_len = s.vertex_buf_len ∧
    (RenderContext.set_amplitude s a).index_buf_len = s.index_buf_len ∧
    (RenderContext.set_amplitude s a).sc_width = s.sc_width ∧
    (RenderContext.set_amplitude s a).sc_height = s.sc_height ∧
    (RenderContext.set_amplitude s a).mx_total = s.mx_total ∧
    (RenderContext.set_amplitude s a).bind_group = s.bind_group ∧
    (RenderContext.set_amplitude s a).next_frame_encoder =
      s.next_frame_encoder ∧
    (RenderContext.set_frequency s f).frequency = f ∧
    (RenderContext.set_frequency s f).amplitude = s.amplitude ∧
    (RenderContext.set_frequency s f).dirty = s.dirty ∧
    (RenderContext.set_frequency s f).vertex_buf_len = s.vertex_buf_len ∧
    (RenderContext.set_frequency s f).index_buf_len = s.index_buf_len ∧
    (RenderContext.set_frequency s f).sc_width = s.sc_width ∧
    (RenderContext.set_frequency s f).sc_height = s.sc_height ∧
    (RenderContext.set_frequency s f).mx_total = s.mx_total ∧
    (RenderContext.set_frequency s f).bind_group = s.bind_group ∧
    (RenderContext.set_frequency s f).next_frame_encoder =
      s.next_frame_encoder ∧
    (RenderContext.set_dirty s).dirty = true :=
  ⟨rfl, rfl, rfl, rfl, rfl, rfl, rfl, rfl, rfl, rfl, rfl, rfl, rfl, rfl,
   rfl, rfl, rfl, rfl, rfl, rfl, rfl⟩

/-- C8: create records the vertex-buffer byte length as vertex count times
VERTEX_SIZE (24) and the index-buffer element count as the index byte
length divided by 4, and every render call issues exactly one indexed draw
covering index range 0..index_buf_len with base vertex 0 and one
instance. -/
theorem buffer_lengths_and_single_draw (w : Nat) (h : Nat)
    (s : RenderContext) :
    (RenderContext.initial w h).vertex_buf_len =
      (create_vertices 10 6).1.length * VERTEX_SIZE ∧
    (RenderContext.initial w h).index_buf_len =
      4 * (create_vertices 10 6).2.length / 4 ∧
    drawsOf ((submittedOf (RenderContext.render s true)).drop
        s.next_frame_encoder.length) =
      [{ indexStart := 0, indexEnd := s.index_buf_len, baseVertex := 0,
         instStart := 0, instEnd := 1 }] := by
  refine ⟨rfl, rfl, ?_⟩
  cases hd : s.dirty
  · rw [render_clean_submits s hd]
    simp [submittedOf, drawsOf, framePass, List.drop_left]
  · rw [render_dirty_submits s hd]
    simp [submittedOf, drawsOf, framePass, regenVertexCopy,
      regenIndexCopy, List.drop_left]

/-- C9: the vertex_buf_len and index_buf_len fields are assigned during
construction and never modified afterwards: resize, the three setters,
regenerate_mesh and render all leave both fields unchanged, so every draw
uses the construction-time index count. -/
theorem buffer_len_fields_never_modified (s : RenderContext) (w : Nat)
    (h : Nat) (a : Rat) (f : Rat) (b : Bool) :
    ((RenderContext.resize s w h).vertex_buf_len = s.vertex_buf_len ∧
      (RenderContext.resize s w h).index_buf_len = s.index_buf_len) ∧
    ((RenderContext.set_amplitude s a).vertex_buf_len = s.vertex_buf_len ∧
      (RenderContext.set_amplitude s a).index_buf_len = s.index_buf_len) ∧
    ((RenderContext.set_frequency s f).vertex_buf_len = s.vertex_buf_len ∧
      (RenderContext.set_frequency s f).index_buf_len = s.index_buf_len) ∧
    ((RenderContext.set_dirty s).vertex_buf_len = s.vertex_buf_len ∧
      (RenderContext.set_dirty s).index_buf_len = s.index_buf_len) ∧
    ((RenderContext.regenerate_mesh s).vertex_buf_len = s.vertex_buf_len ∧
      (RenderContext.regenerate_mesh s).index_buf_len = s.index_buf_len) ∧
    ((renderStateAfter s b).vertex_buf_len = s.vertex_buf_len ∧
      (renderStateAfter s b).index_buf_len = s.index_buf_len) := by
  refine ⟨⟨rfl, rfl⟩, ⟨rfl, rfl⟩, ⟨rfl, rfl⟩, ⟨rfl, rfl⟩, ⟨rfl, rfl⟩, ?_⟩
  cases b
  · simp [renderStateAfter, RenderContext.render]
  · cases hd : s.dirty
    · simp [renderStateAfter, render_clean_submits s hd]
    · simp [renderStateAfter, render_dirty_submits s hd]

/-- C10: RenderContext::create never returns None: every failure path
during construction panics instead of producing a None, and the single
return statement wraps the fully constructed context in Some — so any
returned value is Some of a usable context. -/
theorem create_never_returns_none (w : Nat) (h : Nat)
    (adapterOk : Bool) (vsOk : Bool) (fsOk : Bool)
    (r : Option RenderContext)
    (hr : RenderContext.create w h adapterOk vsOk fsOk = Except.ok r) :
    r.isSome = true := by
  cases adapterOk <;> cases vsOk <;> cases fsOk <;>
    simp_all [RenderContext.create]
  exact hr ▸ rfl

theorem create_never_returns_none_witness :
    RenderContext.create 800 600 true true true =
      Except.ok (some (RenderContext.initial 800 600)) ∧
    (some (RenderContext.initial 800 600)).isSome = true :=
  ⟨rfl, create_never_returns_none 800 600 true true true _ rfl⟩

end Jvox
